import Mathlib

/-!
# Verification of `examples/hamburger_standard/ExecModel_Burger.py`

The source is a straight-line Python script that builds a star-disc-envelope
model by calling the external `sf3dmodels` library (`U`, `Model`, `Res`,
`Plot_model`), exports the result in LIME format and renders diagnostic plots.

The embedding below translates the script line by line.  Python floats are
modelled as real numbers, numpy per-grid-point arrays as functions `ℕ → ℝ`.
The external library (which is not part of the shown source) is a parameter:
a record of functions, each of which may either return a value or raise an
exception (`Except`).  The script itself is the monadic program `script`,
which records every external invocation, together with the exact argument
values passed, in a trace (`List Call`).
-/

namespace Burger

/-- A numpy per-grid-point array: one real value per grid node index. -/
abbrev Arr : Type := ℕ → ℝ

/-- Modelled from the spec: the external `U` module of unit constants
(`U.MSun`, `U.RSun`, `U.LSun`, `U.TSun`, `U.MSun_yr`, `U.AU`); their numeric
values live in the library, so they are opaque parameters here. -/
structure Units where
  MSun : ℝ
  RSun : ℝ
  LSun : ℝ
  TSun : ℝ
  MSun_yr : ℝ
  AU : ℝ

/-- Modelled from the spec: the aggregate returned by the external
`Model.grid`; the script reads only its `NPoints` attribute. -/
structure Grid where
  NPoints : ℕ

/-- Modelled from the spec: the aggregate returned by the external
`Model.density_Env_Disc`; only the attributes the script reads are kept. -/
structure EnvDensity where
  total : Arr
  r_env : ℝ
  streamline : Arr

/-- Modelled from the spec: the aggregate returned by the external
`Model.density_Hamburgers`; only the attributes the script reads are kept. -/
structure DiscDensity where
  total : Arr
  H : Arr
  Rt : ℝ
  r_disc : ℝ

/-- Modelled from the spec: the aggregate returned by the external
`Model.temperature_Hamburgers`. -/
structure Temperature where
  total : Arr

/-- Modelled from the spec: the opaque velocity aggregate returned by the
external `Model.velocity`; the script never inspects it. -/
structure Velocity where
  data : Arr

/-- Modelled from the spec: the opaque object returned by the external
`matplotlib.colors.LogNorm(vmin, vmax)` constructor. -/
structure Norm where
  vmin : ℝ
  vmax : ℝ

/-- The `plane` keyword argument of `Plot_model.plane2D`: the source passes
either a dict `\x7b'z': v\x7d` or `\x7b'y': v\x7d`. -/
inductive Plane where
  | z (v : ℝ)
  | y (v : ℝ)

/-- The composite density aggregate the script itself assembles with
`Model.Struct(**{...})` (lines 64-73 of the source). -/
structure Density where
  total : Arr
  disc : Arr
  env : Arr
  H : Arr
  Rt : ℝ
  discFlag : Bool
  envFlag : Bool
  r_disc : ℝ
  r_env : ℝ
  streamline : Arr

/-- One recorded invocation of an external routine, together with the exact
argument values the script passed to it. -/
inductive Call where
  | time : Call
  | print (vals : List ℝ) : Call
  | grid (sizes : List ℝ) (divisions : List ℕ) : Call
  | rho0 (mrate rd mstar : ℝ) : Call
  | density_Env_Disc (rstar rd rho0 : ℝ) (arho : Option ℝ) (g : Grid)
      (discFlag envFlag : Bool) (renv_max : ℝ) : Call
  | density_Hamburgers (rstar h0sf rd rho0 arho : ℝ) (g : Grid)
      (discFlag : Bool) (rdisc_max : ℝ) : Call
  | temperature_Hamburgers (tstar rstar mstar mrate rd t10env bt : ℝ)
      (dens : Density) (g : Grid) (tmin_disc : ℝ) (inverted : Bool) : Call
  | velocity (rstar mstar rd : ℝ) (dens : Density) (g : Grid) : Call
  | abundance (ab0 : ℝ) (npoints : ℕ) : Call
  | gastodust (gtd0 : ℝ) (npoints : ℕ) : Call
  | dataTabLIME (dens temp : Arr) (vel : Velocity) (ab gtd : Arr) (g : Grid) : Call
  | printProperties (dens : Density) (temp : Temperature) (g : Grid) : Call
  | logNorm (vmin vmax : ℝ) : Call
  | scatter3D (g : Grid) (field : Arr) (weight : ℝ) (nrand : ℕ) (colordim : Arr)
      (axisunit : ℝ) (cmap : String) (norm : Norm) (colorlabel output : String)
      (showPlot : Bool) : Call
  | plane2D (g : Grid) (field : Arr) (axisunit : ℝ) (cmap : String) (plane : Plane)
      (norm : Norm) (colorlabel output : String) (showPlot : Bool) : Call

/-- The stage of the pipeline a recorded call belongs to: the constructor of
the call with the argument payloads erased (plot calls keep their output file
name, which is part of the fixed external interface). -/
inductive Tag where
  | time : Tag
  | print : Tag
  | grid : Tag
  | rho0 : Tag
  | density_Env_Disc : Tag
  | density_Hamburgers : Tag
  | temperature_Hamburgers : Tag
  | velocity : Tag
  | abundance : Tag
  | gastodust : Tag
  | dataTabLIME : Tag
  | printProperties : Tag
  | logNorm : Tag
  | scatter3D (output : String) : Tag
  | plane2D (output : String) : Tag
deriving DecidableEq

/-- Erase a recorded call to its pipeline stage. -/
def callTag : Call → Tag
  | Call.time => Tag.time
  | Call.print _ => Tag.print
  | Call.grid _ _ => Tag.grid
  | Call.rho0 _ _ _ => Tag.rho0
  | Call.density_Env_Disc _ _ _ _ _ _ _ _ => Tag.density_Env_Disc
  | Call.density_Hamburgers _ _ _ _ _ _ _ _ => Tag.density_Hamburgers
  | Call.temperature_Hamburgers _ _ _ _ _ _ _ _ _ _ _ => Tag.temperature_Hamburgers
  | Call.velocity _ _ _ _ _ => Tag.velocity
  | Call.abundance _ _ => Tag.abundance
  | Call.gastodust _ _ => Tag.gastodust
  | Call.dataTabLIME _ _ _ _ _ _ => Tag.dataTabLIME
  | Call.printProperties _ _ _ => Tag.printProperties
  | Call.logNorm _ _ => Tag.logNorm
  | Call.scatter3D _ _ _ _ _ _ _ _ _ out _ => Tag.scatter3D out
  | Call.plane2D _ _ _ _ _ _ _ out _ => Tag.plane2D out

/-- Modelled from the spec: the external library the script invokes.  Every
routine may either return normally (`Except.ok`) or raise an exception
(`Except.error`); the script installs no handler of its own. -/
structure Library (ε : Type) where
  time : Except ε ℝ
  print : List ℝ → Except ε Unit
  grid : List ℝ → List ℕ → Except ε Grid
  Rho0 : ℝ → ℝ → ℝ → Except ε ℝ
  density_Env_Disc : ℝ → ℝ → ℝ → Option ℝ → Grid → Bool → Bool → ℝ →
    Except ε EnvDensity
  density_Hamburgers : ℝ → ℝ → ℝ → ℝ → ℝ → Grid → Bool → ℝ →
    Except ε DiscDensity
  temperature_Hamburgers : ℝ → ℝ → ℝ → ℝ → ℝ → ℝ → ℝ → Density → Grid → ℝ →
    Bool → Except ε Temperature
  velocity : ℝ → ℝ → ℝ → Density → Grid → Except ε Velocity
  abundance : ℝ → ℕ → Except ε Arr
  gastodust : ℝ → ℕ → Except ε Arr
  DataTab_LIME : Arr → Arr → Velocity → Arr → Arr → Grid → Except ε Unit
  PrintProperties : Density → Temperature → Grid → Except ε Unit
  logNorm : ℝ → ℝ → Except ε Norm
  scatter3D : Grid → Arr → ℝ → ℕ → Arr → ℝ → String → Norm → String → String →
    Bool → Except ε Unit
  plane2D : Grid → Arr → ℝ → String → Plane → Norm → String → String → Bool →
    Except ε Unit

/-- Modelled from the spec: a library whose routines always return normally
(the pure return values, without the exception channel). -/
structure LibraryFns where
  time : ℝ
  grid : List ℝ → List ℕ → Grid
  Rho0 : ℝ → ℝ → ℝ → ℝ
  density_Env_Disc : ℝ → ℝ → ℝ → Option ℝ → Grid → Bool → Bool → ℝ → EnvDensity
  density_Hamburgers : ℝ → ℝ → ℝ → ℝ → ℝ → Grid → Bool → ℝ → DiscDensity
  temperature_Hamburgers : ℝ → ℝ → ℝ → ℝ → ℝ → ℝ → ℝ → Density → Grid → ℝ →
    Bool → Temperature
  velocity : ℝ → ℝ → ℝ → Density → Grid → Velocity
  abundance : ℝ → ℕ → Arr
  gastodust : ℝ → ℕ → Arr
  logNorm : ℝ → ℝ → Norm

/-- Lift an always-normal library into the exception-aware interface: every
routine returns `Except.ok`. -/
def toLib {ε : Type} (fns : LibraryFns) : Library ε where
  time := Except.ok fns.time
  print := fun _ => Except.ok ()
  grid := fun sizes divs => Except.ok (fns.grid sizes divs)
  Rho0 := fun a b c => Except.ok (fns.Rho0 a b c)
  density_Env_Disc := fun a b c d e f g h =>
    Except.ok (fns.density_Env_Disc a b c d e f g h)
  density_Hamburgers := fun a b c d e f g h =>
    Except.ok (fns.density_Hamburgers a b c d e f g h)
  temperature_Hamburgers := fun a b c d e f g h i j k =>
    Except.ok (fns.temperature_Hamburgers a b c d e f g h i j k)
  velocity := fun a b c d e => Except.ok (fns.velocity a b c d e)
  abundance := fun a n => Except.ok (fns.abundance a n)
  gastodust := fun a n => Except.ok (fns.gastodust a n)
  DataTab_LIME := fun _ _ _ _ _ _ => Except.ok ()
  PrintProperties := fun _ _ _ => Except.ok ()
  logNorm := fun a b => Except.ok (fns.logNorm a b)
  scatter3D := fun _ _ _ _ _ _ _ _ _ _ _ => Except.ok ()
  plane2D := fun _ _ _ _ _ _ _ _ _ => Except.ok ()

/-- The effect monad of the script: an exception channel plus the growing
trace of recorded external invocations. -/
def M (ε α : Type) : Type := List Call → Except ε α × List Call

instance {ε : Type} : Monad (M ε) where
  pure a := fun s => (Except.ok a, s)
  bind x f := fun s =>
    match x s with
    | (Except.ok a, s1) => f a s1
    | (Except.error e, s1) => (Except.error e, s1)

/-- Perform one external invocation: record it in the trace and surface its
result (normal return or raised exception). -/
def call {ε α : Type} (c : Call) (r : Except ε α) : M ε α :=
  fun s => (r, s ++ [c])

noncomputable section

/-- Source line 22: `MStar = 0.86 * U.MSun`. -/
def MStar (u : Units) : ℝ := 0.86 * u.MSun

/-- Source line 23: `MRate = 5.e-6 * U.MSun_yr`. -/
def MRate (u : Units) : ℝ := 5e-6 * u.MSun_yr

/-- Source line 24: `RStar = U.RSun * ( MStar/U.MSun )**0.8`. -/
def RStar (u : Units) : ℝ := u.RSun * (MStar u / u.MSun) ^ (0.8 : ℝ)

/-- Source line 25: `LStar = U.LSun * ( MStar/U.MSun )**4`. -/
def LStar (u : Units) : ℝ := u.LSun * (MStar u / u.MSun) ^ (4 : ℝ)

/-- Source line 26: `TStar = U.TSun * ( (LStar/U.LSun) / (RStar/U.RSun)**2 )**0.25`. -/
def TStar (u : Units) : ℝ :=
  u.TSun * ((LStar u / u.LSun) / (RStar u / u.RSun) ^ (2 : ℝ)) ^ (0.25 : ℝ)

/-- Source line 27: `Rd = 264. * U.AU`. -/
def Rd (u : Units) : ℝ := 264 * u.AU

/-- Source line 35: `sizex = sizey = sizez = 500 * U.AU`. -/
def sizex (u : Units) : ℝ := 500 * u.AU

/-- Source line 35, same chained assignment as `sizex`. -/
def sizey : Units → ℝ := sizex

/-- Source line 35, same chained assignment as `sizex`. -/
def sizez : Units → ℝ := sizex

/-- Source line 36: `Nx = Ny = Nz = 200`. -/
def Nx : ℕ := 200

/-- Source line 36, same chained assignment as `Nx`. -/
def Ny : ℕ := Nx

/-- Source line 36, same chained assignment as `Nx`. -/
def Nz : ℕ := Nx

/-- `Renv = 2.5 * Rd` (envelope section of the source). -/
def Renv (u : Units) : ℝ := 2.5 * Rd u

/-- `H0sf = 0.03`, the disc scale height factor. -/
def H0sf : ℝ := 0.03

/-- `Rdisc = 1.5 * Rd` (disc section of the source). -/
def Rdisc (u : Units) : ℝ := 1.5 * Rd u

/-- `T10Env = 250.`, envelope temperature at 10 AU. -/
def T10Env : ℝ := 250

/-- `Tmin = 10.`, minimum possible temperature. -/
def Tmin : ℝ := 10

/-- `BT = 60.`, adjustable factor for disc temperature. -/
def BT : ℝ := 60

/-- `ab0 = 5e-8`, CH3CN abundance vs H2. -/
def ab0 : ℝ := 5e-8

/-- `gtd0 = 100.`, gas to dust ratio. -/
def gtd0 : ℝ := 100

/-- `tag = 'Burger'`, suffix of the image file names. -/
def tag : String := "Burger"

/-- `weight = 10*T10Env`, the weighting factor of the 3D scatter plot. -/
def weight : ℝ := 10 * T10Env

/-- Lines 64-73 of the source: the composite density assembled in-file with
`Model.Struct`, whose `total` is the element-wise numpy sum
`densEnv.total + densDisc.total` and whose remaining attributes are copied
from the envelope and disc aggregates (both flags are set to `True`). -/
def compositeDensity (densEnv : EnvDensity) (densDisc : DiscDensity) : Density where
  total := fun i => densEnv.total i + densDisc.total i
  disc := densDisc.total
  env := densEnv.total
  H := densDisc.H
  Rt := densDisc.Rt
  discFlag := true
  envFlag := true
  r_disc := densDisc.r_disc
  r_env := densEnv.r_env
  streamline := densEnv.streamline

/-- The module-level bindings still live at the end of the run. -/
structure Final where
  GRID : Grid
  Rho0 : ℝ
  densEnv : EnvDensity
  densDisc : DiscDensity
  density : Density
  temperature : Temperature
  vel : Velocity
  abundance : Arr
  gtdratio : Arr

/-- One invocation of `time.time()`. -/
def callTime {ε : Type} (lib : Library ε) : M ε ℝ :=
  call Call.time lib.time

/-- One invocation of `print(...)` with the given float payloads. -/
def callPrint {ε : Type} (lib : Library ε) (vals : List ℝ) : M ε Unit :=
  call (Call.print vals) (lib.print vals)

/-- One invocation of `Model.grid`. -/
def callGrid {ε : Type} (lib : Library ε) (sizes : List ℝ) (divs : List ℕ) :
    M ε Grid :=
  call (Call.grid sizes divs) (lib.grid sizes divs)

/-- One invocation of `Res.Rho0`. -/
def callRho0 {ε : Type} (lib : Library ε) (mrate rd mstar : ℝ) : M ε ℝ :=
  call (Call.rho0 mrate rd mstar) (lib.Rho0 mrate rd mstar)

/-- One invocation of `Model.density_Env_Disc`. -/
def callDensityEnvDisc {ε : Type} (lib : Library ε) (rstar rd rho0 : ℝ)
    (arho : Option ℝ) (g : Grid) (discFlag envFlag : Bool) (renv_max : ℝ) :
    M ε EnvDensity :=
  call (Call.density_Env_Disc rstar rd rho0 arho g discFlag envFlag renv_max)
    (lib.density_Env_Disc rstar rd rho0 arho g discFlag envFlag renv_max)

/-- One invocation of `Model.density_Hamburgers`. -/
def callDensityHamburgers {ε : Type} (lib : Library ε)
    (rstar h0sf rd rho0 arho : ℝ) (g : Grid) (discFlag : Bool) (rdisc_max : ℝ) :
    M ε DiscDensity :=
  call (Call.density_Hamburgers rstar h0sf rd rho0 arho g discFlag rdisc_max)
    (lib.density_Hamburgers rstar h0sf rd rho0 arho g discFlag rdisc_max)

/-- One invocation of `Model.temperature_Hamburgers`. -/
def callTemperatureHamburgers {ε : Type} (lib : Library ε)
    (tstar rstar mstar mrate rd t10env bt : ℝ) (dens : Density) (g : Grid)
    (tmin_disc : ℝ) (inverted : Bool) : M ε Temperature :=
  call (Call.temperature_Hamburgers tstar rstar mstar mrate rd t10env bt dens g
      tmin_disc inverted)
    (lib.temperature_Hamburgers tstar rstar mstar mrate rd t10env bt dens g
      tmin_disc inverted)

/-- One invocation of `Model.velocity`. -/
def callVelocity {ε : Type} (lib : Library ε) (rstar mstar rd : ℝ)
    (dens : Density) (g : Grid) : M ε Velocity :=
  call (Call.velocity rstar mstar rd dens g) (lib.velocity rstar mstar rd dens g)

/-- One invocation of `Model.abundance`. -/
def callAbundance {ε : Type} (lib : Library ε) (a : ℝ) (n : ℕ) : M ε Arr :=
  call (Call.abundance a n) (lib.abundance a n)

/-- One invocation of `Model.gastodust`. -/
def callGastodust {ε : Type} (lib : Library ε) (a : ℝ) (n : ℕ) : M ε Arr :=
  call (Call.gastodust a n) (lib.gastodust a n)

/-- One invocation of `Model.DataTab_LIME`. -/
def callDataTabLIME {ε : Type} (lib : Library ε) (dens temp : Arr)
    (vel : Velocity) (ab gtd : Arr) (g : Grid) : M ε Unit :=
  call (Call.dataTabLIME dens temp vel ab gtd g)
    (lib.DataTab_LIME dens temp vel ab gtd g)

/-- One invocation of `Model.PrintProperties`. -/
def callPrintProperties {ε : Type} (lib : Library ε) (dens : Density)
    (temp : Temperature) (g : Grid) : M ε Unit :=
  call (Call.printProperties dens temp g) (lib.PrintProperties dens temp g)

/-- One invocation of `colors.LogNorm`. -/
def callLogNorm {ε : Type} (lib : Library ε) (vmin vmax : ℝ) : M ε Norm :=
  call (Call.logNorm vmin vmax) (lib.logNorm vmin vmax)

/-- One invocation of `Plot_model.scatter3D`. -/
def callScatter3D {ε : Type} (lib : Library ε) (g : Grid) (field : Arr)
    (w : ℝ) (nrand : ℕ) (colordim : Arr) (axisunit : ℝ) (cmap : String)
    (norm : Norm) (colorlabel output : String) (showPlot : Bool) : M ε Unit :=
  call (Call.scatter3D g field w nrand colordim axisunit cmap norm colorlabel
      output showPlot)
    (lib.scatter3D g field w nrand colordim axisunit cmap norm colorlabel
      output showPlot)

/-- One invocation of `Plot_model.plane2D`. -/
def callPlane2D {ε : Type} (lib : Library ε) (g : Grid) (field : Arr)
    (axisunit : ℝ) (cmap : String) (plane : Plane) (norm : Norm)
    (colorlabel output : String) (showPlot : Bool) : M ε Unit :=
  call (Call.plane2D g field axisunit cmap plane norm colorlabel output showPlot)
    (lib.plane2D g field axisunit cmap plane norm colorlabel output showPlot)

/-- The module body of `ExecModel_Burger.py`, transliterated statement by
statement.  In-file computations (the stellar parameters, the composite
density, `dens_plot = density.total / 1e6`, the `vmin`/`vmax` rescalings of
`np.array([...])`, the emissivity product and the `'%s' % tag` string
formatting) are performed here; every external invocation goes through a
`call*` wrapper, which records it in the trace. -/
def script {ε : Type} (u : Units) (lib : Library ε) : M ε Final := do
  let t0 ← callTime lib
  let _ ← callPrint lib [RStar u / u.RSun, LStar u / u.LSun, TStar u]
  let GRID ← callGrid lib [sizex u, sizey u, sizez u] [Nx, Ny, Nz]
  let NPoints := GRID.NPoints
  let Rho0 ← callRho0 lib (MRate u) (Rd u) (MStar u)
  let densEnv ← callDensityEnvDisc lib (RStar u) (Rd u) Rho0 none GRID
    false true (Renv u)
  let densDisc ← callDensityHamburgers lib (RStar u) H0sf (Rd u) Rho0 5.25 GRID
    true (Rdisc u)
  let density := compositeDensity densEnv densDisc
  let temperature ← callTemperatureHamburgers lib (TStar u) (RStar u) (MStar u)
    (MRate u) (Rd u) T10Env BT density GRID Tmin false
  let vel ← callVelocity lib (RStar u) (MStar u) (Rd u) density GRID
  let abundance ← callAbundance lib ab0 NPoints
  let gtdratio ← callGastodust lib gtd0 NPoints
  let _ ← callDataTabLIME lib density.total temperature.total vel abundance
    gtdratio GRID
  let _ ← callPrintProperties lib density temperature GRID
  let t1 ← callTime lib
  let _ ← callPrint lib [t1 - t0]
  let _ ← callPrint lib []
  let dens_plot : Arr := fun i => density.total i / 1e6
  let norm1 ← callLogNorm lib (5e11 / 1e6) (5e15 / 1e6)
  let _ ← callScatter3D lib GRID temperature.total weight 4000 dens_plot u.AU
    "hot" norm1 "$\\rho$ $[cm^{-3}]$" ("3Dpoints" ++ tag ++ ".png") false
  let norm2 ← callLogNorm lib (1e12 / 1e6) (1e17 / 1e6)
  let _ ← callPlane2D lib GRID dens_plot u.AU "ocean_r" (Plane.z (0 * u.AU))
    norm2 "$[\\rm cm^{-3}]$" ("DensMidplane_" ++ tag ++ ".png") false
  let norm3 ← callLogNorm lib (1e11 / 1e6) (5e15 / 1e6)
  let _ ← callPlane2D lib GRID dens_plot u.AU "ocean_r" (Plane.y (0 * u.AU))
    norm3 "$[\\rm cm^{-3}]$" ("DensVertical_" ++ tag ++ ".png") false
  let norm4 ← callLogNorm lib 5e1 3e3
  let _ ← callPlane2D lib GRID temperature.total u.AU "ocean_r"
    (Plane.z (0 * u.AU)) norm4 "[Kelvin]" ("TempMidplane_" ++ tag ++ ".png") false
  let norm5 ← callLogNorm lib 5e1 2e3
  let _ ← callPlane2D lib GRID temperature.total u.AU "ocean_r"
    (Plane.y (0 * u.AU)) norm5 "[Kelvin]" ("TempVertical_" ++ tag ++ ".png") false
  let norm6 ← callLogNorm lib 3e7 5e12
  let _ ← callPlane2D lib GRID (fun i => temperature.total i * dens_plot i) u.AU
    "ocean_r" (Plane.y (0 * u.AU)) norm6 "[$\\rho$ T]"
    ("Emissivity_" ++ tag ++ ".png") false
  pure { GRID := GRID, Rho0 := Rho0, densEnv := densEnv, densDisc := densDisc,
         density := density, temperature := temperature, vel := vel,
         abundance := abundance, gtdratio := gtdratio }

/-- Run the script on the empty trace: final result (or uncaught exception)
paired with the trace of external invocations. -/
def runScript {ε : Type} (u : Units) (lib : Library ε) :
    Except ε Final × List Call :=
  script u lib []

/-- The values the module-level bindings hold at the end of a run in which
every external routine returned normally (library behaviour `fns`). -/
def finalOf (u : Units) (fns : LibraryFns) : Final :=
  let GRID := fns.grid [sizex u, sizey u, sizez u] [Nx, Ny, Nz]
  let Rho0 := fns.Rho0 (MRate u) (Rd u) (MStar u)
  let densEnv := fns.density_Env_Disc (RStar u) (Rd u) Rho0 none GRID
    false true (Renv u)
  let densDisc := fns.density_Hamburgers (RStar u) H0sf (Rd u) Rho0 5.25 GRID
    true (Rdisc u)
  let density := compositeDensity densEnv densDisc
  let temperature := fns.temperature_Hamburgers (TStar u) (RStar u) (MStar u)
    (MRate u) (Rd u) T10Env BT density GRID Tmin false
  let vel := fns.velocity (RStar u) (MStar u) (Rd u) density GRID
  { GRID := GRID, Rho0 := Rho0, densEnv := densEnv, densDisc := densDisc,
    density := density, temperature := temperature, vel := vel,
    abundance := fns.abundance ab0 GRID.NPoints,
    gtdratio := fns.gastodust gtd0 GRID.NPoints }

/-- The trace a normally-returning run is expected to leave: every external
invocation exactly once, in source order, each receiving the aggregates
exactly as they were created earlier in the run. -/
def expectedTrace (u : Units) (fns : LibraryFns) : List Call :=
  let f := finalOf u fns
  let dens_plot : Arr := fun i => f.density.total i / 1e6
  [ Call.time,
    Call.print [RStar u / u.RSun, LStar u / u.LSun, TStar u],
    Call.grid [sizex u, sizey u, sizez u] [Nx, Ny, Nz],
    Call.rho0 (MRate u) (Rd u) (MStar u),
    Call.density_Env_Disc (RStar u) (Rd u) f.Rho0 none f.GRID false true (Renv u),
    Call.density_Hamburgers (RStar u) H0sf (Rd u) f.Rho0 5.25 f.GRID true
      (Rdisc u),
    Call.temperature_Hamburgers (TStar u) (RStar u) (MStar u) (MRate u) (Rd u)
      T10Env BT f.density f.GRID Tmin false,
    Call.velocity (RStar u) (MStar u) (Rd u) f.density f.GRID,
    Call.abundance ab0 f.GRID.NPoints,
    Call.gastodust gtd0 f.GRID.NPoints,
    Call.dataTabLIME f.density.total f.temperature.total f.vel f.abundance
      f.gtdratio f.GRID,
    Call.printProperties f.density f.temperature f.GRID,
    Call.time,
    Call.print [fns.time - fns.time],
    Call.print [],
    Call.logNorm (5e11 / 1e6) (5e15 / 1e6),
    Call.scatter3D f.GRID f.temperature.total weight 4000 dens_plot u.AU "hot"
      (fns.logNorm (5e11 / 1e6) (5e15 / 1e6)) "$\\rho$ $[cm^{-3}]$"
      ("3Dpoints" ++ tag ++ ".png") false,
    Call.logNorm (1e12 / 1e6) (1e17 / 1e6),
    Call.plane2D f.GRID dens_plot u.AU "ocean_r" (Plane.z (0 * u.AU))
      (fns.logNorm (1e12 / 1e6) (1e17 / 1e6)) "$[\\rm cm^{-3}]$"
      ("DensMidplane_" ++ tag ++ ".png") false,
    Call.logNorm (1e11 / 1e6) (5e15 / 1e6),
    Call.plane2D f.GRID dens_plot u.AU "ocean_r" (Plane.y (0 * u.AU))
      (fns.logNorm (1e11 / 1e6) (5e15 / 1e6)) "$[\\rm cm^{-3}]$"
      ("DensVertical_" ++ tag ++ ".png") false,
    Call.logNorm 5e1 3e3,
    Call.plane2D f.GRID f.temperature.total u.AU "ocean_r" (Plane.z (0 * u.AU))
      (fns.logNorm 5e1 3e3) "[Kelvin]" ("TempMidplane_" ++ tag ++ ".png") false,
    Call.logNorm 5e1 2e3,
    Call.plane2D f.GRID f.temperature.total u.AU "ocean_r" (Plane.y (0 * u.AU))
      (fns.logNorm 5e1 2e3) "[Kelvin]" ("TempVertical_" ++ tag ++ ".png") false,
    Call.logNorm 3e7 5e12,
    Call.plane2D f.GRID (fun i => f.temperature.total i * dens_plot i) u.AU
      "ocean_r" (Plane.y (0 * u.AU)) (fns.logNorm 3e7 5e12) "[$\\rho$ T]"
      ("Emissivity_" ++ tag ++ ".png") false ]

/-- The image file name written by a `Plot_model.scatter3D` invocation, if
the call is one. -/
def scatter3DOutput : Call → Option String
  | Call.scatter3D _ _ _ _ _ _ _ _ _ out _ => some out
  | _ => none

/-- The image file names of all `Plot_model.scatter3D` invocations of a trace. -/
def scatter3DOutputs (tr : List Call) : List String :=
  tr.filterMap scatter3DOutput

/-- The image file name written by a `Plot_model.plane2D` invocation, if the
call is one. -/
def plane2DOutput : Call → Option String
  | Call.plane2D _ _ _ _ _ _ _ out _ => some out
  | _ => none

/-- The image file names of all `Plot_model.plane2D` invocations of a trace. -/
def plane2DOutputs (tr : List Call) : List String :=
  tr.filterMap plane2DOutput

/-- The image file name an invocation writes, if it is one of the two plotting
routines (the only image-producing calls the script makes). -/
def imageOutput : Call → Option String
  | Call.scatter3D _ _ _ _ _ _ _ _ _ out _ => some out
  | Call.plane2D _ _ _ _ _ _ _ out _ => some out
  | _ => none

/-- The image file names produced by a trace, in order. -/
def imageOutputs (tr : List Call) : List String :=
  tr.filterMap imageOutput

/-- Whether a recorded invocation is the `Model.DataTab_LIME` file export. -/
def isDataTab : Call → Bool
  | Call.dataTabLIME _ _ _ _ _ _ => true
  | _ => false

/-- All `Model.DataTab_LIME` invocations of a trace, with their arguments. -/
def dataTabCalls (tr : List Call) : List Call :=
  tr.filter isDataTab

/-- The density array handed to the first `Model.DataTab_LIME` invocation of
a trace, if any. -/
def dataTabDensArg (tr : List Call) : Option Arr :=
  tr.findSome? fun c =>
    match c with
    | Call.dataTabLIME dens _ _ _ _ _ => some dens
    | _ => none

/-- The `RStar` argument handed to the first `Model.density_Env_Disc`
invocation of a trace, if any. -/
def envDiscRStarArg (tr : List Call) : Option ℝ :=
  tr.findSome? fun c =>
    match c with
    | Call.density_Env_Disc rstar _ _ _ _ _ _ _ => some rstar
    | _ => none

/-- Concrete unit constants (all equal to one) used to instantiate theorems
with hypotheses on concrete inputs. -/
def uW : Units :=
  { MSun := 1, RSun := 1, LSun := 1, TSun := 1, MSun_yr := 1, AU := 1 }

/-- A concrete, everywhere-normal library behaviour: the envelope density is
constantly `1` and the disc density constantly `2`. -/
def fnsW : LibraryFns where
  time := 0
  grid := fun _ _ => { NPoints := 0 }
  Rho0 := fun _ _ _ => 0
  density_Env_Disc := fun _ _ _ _ _ _ _ _ =>
    { total := fun _ => 1, r_env := 0, streamline := fun _ => 0 }
  density_Hamburgers := fun _ _ _ _ _ _ _ _ =>
    { total := fun _ => 2, H := fun _ => 0, Rt := 0, r_disc := 0 }
  temperature_Hamburgers := fun _ _ _ _ _ _ _ _ _ _ _ => { total := fun _ => 0 }
  velocity := fun _ _ _ _ _ => { data := fun _ => 0 }
  abundance := fun _ _ => fun _ => 0
  gastodust := fun _ _ => fun _ => 0
  logNorm := fun a b => { vmin := a, vmax := b }

/-- The same concrete library behaviour as `fnsW` except that the envelope
density is constantly `3` instead of `1`. -/
def fnsW2 : LibraryFns :=
  { fnsW with density_Env_Disc := fun _ _ _ _ _ _ _ _ =>
      { total := fun _ => 3, r_env := 0, streamline := fun _ => 0 } }

/-- The script as started by the operating system: it receives the process
command-line arguments and environment variables, but its body (which contains
no `sys.argv` or `os.environ` access) never consults them. -/
def runProcess {ε : Type} (argv : List String) (envVars : List (String × String))
    (u : Units) (lib : Library ε) : Except ε Final × List Call :=
  runScript u lib

/-- A library behaving like `toLib fns` except that the very last plotting
call of the script (the one writing the Emissivity image) raises `e`. -/
def libFailEmissivity {ε : Type} (fns : LibraryFns) (e : ε) : Library ε :=
  { toLib fns with plane2D := fun _ _ _ _ _ _ _ out _ =>
      if out = "Emissivity_" ++ tag ++ ".png" then Except.error e
      else Except.ok () }

end

-- Unfolding lemmas for the effect monad and the always-normal library.

lemma pure_app {ε α : Type} (a : α) (s : List Call) :
    (pure a : M ε α) s = (Except.ok a, s) := rfl

lemma call_bind {ε α β : Type} (c : Call) (r : Except ε α) (k : α → M ε β)
    (s : List Call) :
    (call c r >>= k) s =
      match r with
      | Except.ok a => k a (s ++ [c])
      | Except.error e => (Except.error e, s ++ [c]) := by
  cases r <;> rfl

lemma toLib_time {ε : Type} (fns : LibraryFns) :
    (toLib fns : Library ε).time = Except.ok fns.time := rfl

lemma toLib_print {ε : Type} (fns : LibraryFns) (v : List ℝ) :
    (toLib fns : Library ε).print v = Except.ok () := rfl

lemma toLib_grid {ε : Type} (fns : LibraryFns) (a : List ℝ) (b : List ℕ) :
    (toLib fns : Library ε).grid a b = Except.ok (fns.grid a b) := rfl

lemma toLib_Rho0 {ε : Type} (fns : LibraryFns) (a b c : ℝ) :
    (toLib fns : Library ε).Rho0 a b c = Except.ok (fns.Rho0 a b c) := rfl

lemma toLib_density_Env_Disc {ε : Type} (fns : LibraryFns) (a b c : ℝ)
    (d : Option ℝ) (g : Grid) (f1 f2 : Bool) (r : ℝ) :
    (toLib fns : Library ε).density_Env_Disc a b c d g f1 f2 r =
      Except.ok (fns.density_Env_Disc a b c d g f1 f2 r) := rfl

lemma toLib_density_Hamburgers {ε : Type} (fns : LibraryFns) (a b c d e : ℝ)
    (g : Grid) (f1 : Bool) (r : ℝ) :
    (toLib fns : Library ε).density_Hamburgers a b c d e g f1 r =
      Except.ok (fns.density_Hamburgers a b c d e g f1 r) := rfl

lemma toLib_temperature_Hamburgers {ε : Type} (fns : LibraryFns)
    (a b c d e f1 f2 : ℝ) (dn : Density) (g : Grid) (t : ℝ) (inv : Bool) :
    (toLib fns : Library ε).temperature_Hamburgers a b c d e f1 f2 dn g t inv =
      Except.ok (fns.temperature_Hamburgers a b c d e f1 f2 dn g t inv) := rfl

lemma toLib_velocity {ε : Type} (fns : LibraryFns) (a b c : ℝ) (dn : Density)
    (g : Grid) :
    (toLib fns : Library ε).velocity a b c dn g =
      Except.ok (fns.velocity a b c dn g) := rfl

lemma toLib_abundance {ε : Type} (fns : LibraryFns) (a : ℝ) (n : ℕ) :
    (toLib fns : Library ε).abundance a n = Except.ok (fns.abundance a n) := rfl

lemma toLib_gastodust {ε : Type} (fns : LibraryFns) (a : ℝ) (n : ℕ) :
    (toLib fns : Library ε).gastodust a n = Except.ok (fns.gastodust a n) := rfl

lemma toLib_DataTab_LIME {ε : Type} (fns : LibraryFns) (d t : Arr)
    (v : Velocity) (ab gtd : Arr) (g : Grid) :
    (toLib fns : Library ε).DataTab_LIME d t v ab gtd g = Except.ok () := rfl

lemma toLib_PrintProperties {ε : Type} (fns : LibraryFns) (d : Density)
    (t : Temperature) (g : Grid) :
    (toLib fns : Library ε).PrintProperties d t g = Except.ok () := rfl

lemma toLib_logNorm {ε : Type} (fns : LibraryFns) (a b : ℝ) :
    (toLib fns : Library ε).logNorm a b = Except.ok (fns.logNorm a b) := rfl

lemma toLib_scatter3D {ε : Type} (fns : LibraryFns) (g : Grid) (fl : Arr)
    (w : ℝ) (n : ℕ) (cd : Arr) (au : ℝ) (cm : String) (nm : Norm)
    (cl out : String) (sh : Bool) :
    (toLib fns : Library ε).scatter3D g fl w n cd au cm nm cl out sh =
      Except.ok () := rfl

lemma toLib_plane2D {ε : Type} (fns : LibraryFns) (g : Grid) (fl : Arr)
    (au : ℝ) (cm : String) (pl : Plane) (nm : Norm) (cl out : String)
    (sh : Bool) :
    (toLib fns : Library ε).plane2D g fl au cm pl nm cl out sh =
      Except.ok () := rfl

-- The central simulation lemma: under an always-normal library the run
-- returns the end-of-script bindings and leaves exactly the expected trace.

lemma runScript_toLib {ε : Type} (u : Units) (fns : LibraryFns) :
    runScript u (toLib fns : Library ε) =
      (Except.ok (finalOf u fns), expectedTrace u fns) := by
  simp only [runScript, script, callTime, callPrint, callGrid, callRho0,
    callDensityEnvDisc, callDensityHamburgers, callTemperatureHamburgers,
    callVelocity, callAbundance, callGastodust, callDataTabLIME,
    callPrintProperties, callLogNorm, callScatter3D, callPlane2D,
    call_bind, pure_app,
    toLib_time, toLib_print, toLib_grid, toLib_Rho0, toLib_density_Env_Disc,
    toLib_density_Hamburgers, toLib_temperature_Hamburgers, toLib_velocity,
    toLib_abundance, toLib_gastodust, toLib_DataTab_LIME,
    toLib_PrintProperties, toLib_logNorm, toLib_scatter3D, toLib_plane2D,
    List.nil_append, List.append_assoc, List.singleton_append]
  simp only [finalOf, expectedTrace]
  rfl

/-- Claim C1 (as stated, refuted): the script does not write four 2D plane
plot PNGs.  At the concrete unit constants `uW` and the concrete
always-normal library behaviour `fnsW`, the run makes five `plane2D`
invocations, with the listed fixed output names, so the number of 2D plane
plot files is not four. -/
theorem plane2D_count_counterexample :
    plane2DOutputs ((runScript uW (toLib fnsW : Library Unit)).2) =
      ["DensMidplane_Burger.png", "DensVertical_Burger.png",
       "TempMidplane_Burger.png", "TempVertical_Burger.png",
       "Emissivity_Burger.png"] ∧
    ((plane2DOutputs ((runScript uW (toLib fnsW : Library Unit)).2)).length
      == 4) = false := by
  rw [runScript_toLib]
  exact ⟨rfl, rfl⟩

/-- Claim C1 (amended): for every run in which all library calls return
normally, the script writes exactly one 3D scatter plot PNG and five (not
four) 2D plane plot PNGs of density/temperature/emissivity, each with the
listed fixed file name, and no other image file is produced: the plotting
calls recorded in the trace are exactly these six. -/
theorem image_outputs_amended {ε : Type} (u : Units) (fns : LibraryFns) :
    imageOutputs ((runScript u (toLib fns : Library ε)).2) =
      ["3DpointsBurger.png", "DensMidplane_Burger.png",
       "DensVertical_Burger.png", "TempMidplane_Burger.png",
       "TempVertical_Burger.png", "Emissivity_Burger.png"] ∧
    scatter3DOutputs ((runScript u (toLib fns : Library ε)).2) =
      ["3DpointsBurger.png"] ∧
    plane2DOutputs ((runScript u (toLib fns : Library ε)).2) =
      ["DensMidplane_Burger.png", "DensVertical_Burger.png",
       "TempMidplane_Burger.png", "TempVertical_Burger.png",
       "Emissivity_Burger.png"] := by
  rw [runScript_toLib]
  exact ⟨rfl, rfl, rfl⟩

/-- Claim C2: for every run with an always-normal library, the recorded
external invocations are exactly the fixed sequence below, once each, in
source order: grid creation, then density (envelope, then disc), then
temperature, then velocity, then abundance and gas-to-dust ratio, then the
file export, then property printing, then plotting, interleaved only with
the fixed timing/printing/norm-construction calls.  The sequence is one
constant list, independent of the unit constants and of every library return
value, so the script has no data-dependent branching, loop, or other control
structure.  (The composite-density stage is in-file computation, not an
external call; `composite_density_fields` and `aggregates_read_as_created`
place it between the disc density and the temperature stage.) -/
theorem pipeline_order {ε : Type} (u : Units) (fns : LibraryFns) :
    ((runScript u (toLib fns : Library ε)).2).map callTag =
      [Tag.time, Tag.print, Tag.grid, Tag.rho0, Tag.density_Env_Disc,
       Tag.density_Hamburgers, Tag.temperature_Hamburgers, Tag.velocity,
       Tag.abundance, Tag.gastodust, Tag.dataTabLIME, Tag.printProperties,
       Tag.time, Tag.print, Tag.print,
       Tag.logNorm, Tag.scatter3D "3DpointsBurger.png",
       Tag.logNorm, Tag.plane2D "DensMidplane_Burger.png",
       Tag.logNorm, Tag.plane2D "DensVertical_Burger.png",
       Tag.logNorm, Tag.plane2D "TempMidplane_Burger.png",
       Tag.logNorm, Tag.plane2D "TempVertical_Burger.png",
       Tag.logNorm, Tag.plane2D "Emissivity_Burger.png"] := by
  rw [runScript_toLib]
  rfl

/-- Claim C3: in every run with an always-normal library, the LIME file
export is invoked exactly once, and its arguments are precisely the composite
density total field, the total temperature field, the velocity field, the
abundance array, the gas-to-dust ratio array and the grid object produced
earlier in that run (the components of the run result `finalOf u fns`). -/
theorem dataTabLIME_invocation {ε : Type} (u : Units) (fns : LibraryFns) :
    (runScript u (toLib fns : Library ε)).1 = Except.ok (finalOf u fns) ∧
    dataTabCalls ((runScript u (toLib fns : Library ε)).2) =
      [Call.dataTabLIME (finalOf u fns).density.total
        (finalOf u fns).temperature.total (finalOf u fns).vel
        (finalOf u fns).abundance (finalOf u fns).gtdratio
        (finalOf u fns).GRID] := by
  rw [runScript_toLib]
  exact ⟨rfl, rfl⟩

/-- Claim C4 (as stated, refuted): the script does not pass only fixed
literal argument values to external calls.  The density array handed to the
file export is computed in-file: under library behaviour `fnsW` (envelope
density constantly 1, disc density constantly 2) the exported array holds 3,
their element-wise sum, a value equal to neither library output, and under
`fnsW2` (envelope density 3) the same call site receives 5 - so the argument
is not a fixed literal of the file. -/
theorem literal_args_counterexample :
    (dataTabDensArg ((runScript uW (toLib fnsW : Library Unit)).2)).map
      (fun a => a 0) = some (3 : ℝ) ∧
    (finalOf uW fnsW).densEnv.total 0 = 1 ∧
    (finalOf uW fnsW).densDisc.total 0 = 2 ∧
    (dataTabDensArg ((runScript uW (toLib fnsW2 : Library Unit)).2)).map
      (fun a => a 0) = some (5 : ℝ) := by
  have h1 : dataTabDensArg ((runScript uW (toLib fnsW : Library Unit)).2) =
      some (fun _ => (1 : ℝ) + 2) := by
    rw [runScript_toLib]
    rfl
  have h2 : dataTabDensArg ((runScript uW (toLib fnsW2 : Library Unit)).2) =
      some (fun _ => (3 : ℝ) + 2) := by
    rw [runScript_toLib]
    rfl
  refine ⟨?_, rfl, rfl, ?_⟩
  · rw [h1]
    norm_num [Option.map]
  · rw [h2]
    norm_num [Option.map]

/-- Claim C4 (amended): most external invocations receive constant
parameters, but the script does perform in-file computation whose results are
passed to library calls: in every run the density array handed to the file
export equals the element-wise sum of the envelope and disc density totals
computed in this file, and the stellar radius handed to the envelope density
constructor equals the in-file power-law expression
`U.RSun * (MStar/U.MSun)**0.8`. -/
theorem in_file_computation_amended {ε : Type} (u : Units) (fns : LibraryFns) :
    dataTabDensArg ((runScript u (toLib fns : Library ε)).2) =
      some (fun i => (finalOf u fns).densEnv.total i +
        (finalOf u fns).densDisc.total i) ∧
    envDiscRStarArg ((runScript u (toLib fns : Library ε)).2) =
      some (u.RSun * (MStar u / u.MSun) ^ (0.8 : ℝ)) := by
  rw [runScript_toLib]
  exact ⟨rfl, rfl⟩

/-- Claim C5: the script installs no error handling.  For each external call
site, if that routine raises an exception `e` (all the other routines
behaving normally), then `e` propagates uncaught, unmodified, as the result
of the whole run; when the grid constructor raises, the trace additionally
shows that the run stops at that call, with nothing executed after it.  The
final conjunct injects the failure at the very last call of the script (the
Emissivity plot).  Parameter computation itself is total real arithmetic and
raises nothing in the model. -/
theorem errors_propagate {ε : Type} (u : Units) (fns : LibraryFns) (e : ε) :
    (runScript u { toLib fns with time := Except.error e }).1 =
      Except.error e ∧
    (runScript u { toLib fns with print := fun _ => Except.error e }).1 =
      Except.error e ∧
    (runScript u { toLib fns with grid := fun _ _ => Except.error e }).1 =
      Except.error e ∧
    ((runScript u { toLib fns with grid := fun _ _ => Except.error e }).2).map
      callTag = [Tag.time, Tag.print, Tag.grid] ∧
    (runScript u { toLib fns with Rho0 := fun _ _ _ => Except.error e }).1 =
      Except.error e ∧
    (runScript u { toLib fns with density_Env_Disc := fun _ _ _ _ _ _ _ _ => Except.error e }).1 = Except.error e ∧
    (runScript u { toLib fns with density_Hamburgers := fun _ _ _ _ _ _ _ _ => Except.error e }).1 = Except.error e ∧
    (runScript u { toLib fns with temperature_Hamburgers := fun _ _ _ _ _ _ _ _ _ _ _ => Except.error e }).1 = Except.error e ∧
    (runScript u { toLib fns with velocity := fun _ _ _ _ _ => Except.error e }).1 = Except.error e ∧
    (runScript u { toLib fns with abundance := fun _ _ => Except.error e }).1 = Except.error e ∧
    (runScript u { toLib fns with gastodust := fun _ _ => Except.error e }).1 = Except.error e ∧
    (runScript u { toLib fns with DataTab_LIME := fun _ _ _ _ _ _ => Except.error e }).1 = Except.error e ∧
    (runScript u { toLib fns with PrintProperties := fun _ _ _ => Except.error e }).1 = Except.error e ∧
    (runScript u { toLib fns with logNorm := fun _ _ => Except.error e }).1 = Except.error e ∧
    (runScript u { toLib fns with scatter3D := fun _ _ _ _ _ _ _ _ _ _ _ => Except.error e }).1 = Except.error e ∧
    (runScript u (libFailEmissivity fns e)).1 = Except.error e := by
  refine ⟨?_, ?_, ?_, ?_, ?_, ?_, ?_, ?_, ?_, ?_, ?_, ?_, ?_, ?_, ?_, ?_⟩ <;>
    · simp only [libFailEmissivity, runScript, script, callTime, callPrint,
        callGrid, callRho0, callDensityEnvDisc, callDensityHamburgers,
        callTemperatureHamburgers, callVelocity, callAbundance, callGastodust,
        callDataTabLIME, callPrintProperties, callLogNorm, callScatter3D,
        callPlane2D, call_bind, pure_app, tag,
        toLib_time, toLib_print, toLib_grid, toLib_Rho0,
        toLib_density_Env_Disc, toLib_density_Hamburgers,
        toLib_temperature_Hamburgers, toLib_velocity, toLib_abundance,
        toLib_gastodust, toLib_DataTab_LIME, toLib_PrintProperties,
        toLib_logNorm, toLib_scatter3D, toLib_plane2D,
        String.reduceAppend, String.reduceEq, reduceIte]
      try rfl

/-- Claim C6: every aggregate the script obtains (grid, envelope and disc
density aggregates, composite density, temperature, velocity, abundance and
gas-to-dust arrays) is created once and never mutated afterwards: the full
trace of a run with an always-normal library equals `expectedTrace`, in which
every later invocation (temperature, velocity, export, printing, plotting)
receives the aggregates exactly as created, and the run result holds those
same objects. -/
theorem aggregates_read_as_created {ε : Type} (u : Units) (fns : LibraryFns) :
    (runScript u (toLib fns : Library ε)).2 = expectedTrace u fns ∧
    (runScript u (toLib fns : Library ε)).1 = Except.ok (finalOf u fns) := by
  rw [runScript_toLib]
  exact ⟨rfl, rfl⟩

/-- Claim C7: the script's behaviour and outputs are independent of
command-line arguments and environment variables: two process invocations
differing only in `argv` or the environment, with identical library
behaviour, perform the same computation, produce the same result and leave
the same trace. -/
theorem independent_of_cli_and_env {ε : Type} (argv1 argv2 : List String)
    (env1 env2 : List (String × String)) (u : Units) (lib : Library ε) :
    runProcess argv1 env1 u lib = runProcess argv2 env2 u lib := rfl

/-- Claim C8: under the precondition that every external library call returns
normally (behaviour `toLib fns`), the script terminates: the run yields the
final bindings `finalOf u fns` (its embedding is a total straight-line
function), and the last recorded invocation is the final plotting call, the
Emissivity `plane2D`. -/
theorem script_terminates {ε : Type} (u : Units) (fns : LibraryFns) :
    (runScript u (toLib fns : Library ε)).1 = Except.ok (finalOf u fns) ∧
    (((runScript u (toLib fns : Library ε)).2).map callTag).getLast? =
      some (Tag.plane2D "Emissivity_Burger.png") := by
  rw [runScript_toLib]
  exact ⟨rfl, rfl⟩

/-- Claim C9: at every grid point `i`, the composite density built in-file at
lines 64-73 has `total` equal to the element-wise sum of the envelope and
disc totals, its `disc` field equal to the disc total, its `env` field equal
to the envelope total, and both `discFlag` and `envFlag` set to `True`. -/
theorem composite_density_fields (densEnv : EnvDensity)
    (densDisc : DiscDensity) (i : ℕ) :
    (compositeDensity densEnv densDisc).total i =
      densEnv.total i + densDisc.total i ∧
    (compositeDensity densEnv densDisc).disc = densDisc.total ∧
    (compositeDensity densEnv densDisc).env = densEnv.total ∧
    (compositeDensity densEnv densDisc).discFlag = true ∧
    (compositeDensity densEnv densDisc).envFlag = true :=
  ⟨rfl, rfl, rfl, rfl, rfl⟩

/-- Claim C10: for positive solar constants, the derived stellar parameters
satisfy the exact scaling relations `RStar/RSun = (MStar/MSun)^0.8` and
`LStar/LSun = (MStar/MSun)^4`, and consequently
`TStar = TSun * ((LStar/LSun)/(RStar/RSun)^2)^0.25 = TSun * (MStar/MSun)^0.6`,
as identities over the reals. -/
theorem stellar_scaling_relations (u : Units) (hM : 0 < u.MSun)
    (hR : 0 < u.RSun) (hL : 0 < u.LSun) :
    RStar u / u.RSun = (MStar u / u.MSun) ^ (0.8 : ℝ) ∧
    LStar u / u.LSun = (MStar u / u.MSun) ^ (4 : ℝ) ∧
    TStar u = u.TSun *
      ((LStar u / u.LSun) / (RStar u / u.RSun) ^ (2 : ℝ)) ^ (0.25 : ℝ) ∧
    TStar u = u.TSun * (MStar u / u.MSun) ^ (0.6 : ℝ) := by
  have hx : (0 : ℝ) < MStar u / u.MSun := by
    have h86 : (0 : ℝ) < 0.86 := by norm_num
    exact div_pos (mul_pos h86 hM) hM
  have h1 : RStar u / u.RSun = (MStar u / u.MSun) ^ (0.8 : ℝ) := by
    unfold RStar
    exact mul_div_cancel_left₀ _ hR.ne'
  have h2 : LStar u / u.LSun = (MStar u / u.MSun) ^ (4 : ℝ) := by
    unfold LStar
    exact mul_div_cancel_left₀ _ hL.ne'
  refine ⟨h1, h2, rfl, ?_⟩
  show u.TSun * ((LStar u / u.LSun) / (RStar u / u.RSun) ^ (2 : ℝ)) ^ (0.25 : ℝ)
    = u.TSun * (MStar u / u.MSun) ^ (0.6 : ℝ)
  rw [h1, h2]
  have e1 : ((MStar u / u.MSun) ^ (0.8 : ℝ)) ^ (2 : ℝ) =
      (MStar u / u.MSun) ^ (1.6 : ℝ) := by
    rw [← Real.rpow_mul hx.le]
    norm_num
  have e2 : (MStar u / u.MSun) ^ (4 : ℝ) / (MStar u / u.MSun) ^ (1.6 : ℝ) =
      (MStar u / u.MSun) ^ (2.4 : ℝ) := by
    rw [← Real.rpow_sub hx]
    norm_num
  have e3 : ((MStar u / u.MSun) ^ (2.4 : ℝ)) ^ (0.25 : ℝ) =
      (MStar u / u.MSun) ^ (0.6 : ℝ) := by
    rw [← Real.rpow_mul hx.le]
    norm_num
  rw [e1, e2, e3]

/-- Witness for `stellar_scaling_relations`: at the concrete unit constants
`uW` (all equal to one) the positivity hypotheses hold and the scaling
relations follow by applying the theorem there. -/
theorem stellar_scaling_relations_witness :
    (0 : ℝ) < uW.MSun ∧ (0 : ℝ) < uW.RSun ∧ (0 : ℝ) < uW.LSun ∧
    (RStar uW / uW.RSun = (MStar uW / uW.MSun) ^ (0.8 : ℝ) ∧
     LStar uW / uW.LSun = (MStar uW / uW.MSun) ^ (4 : ℝ) ∧
     TStar uW = uW.TSun *
       ((LStar uW / uW.LSun) / (RStar uW / uW.RSun) ^ (2 : ℝ)) ^ (0.25 : ℝ) ∧
     TStar uW = uW.TSun * (MStar uW / uW.MSun) ^ (0.6 : ℝ)) :=
  ⟨one_pos, one_pos, one_pos,
    stellar_scaling_relations uW one_pos one_pos one_pos⟩

end Burger
